import Mathlib

/-!
Verification of the TikTok live recorder core (src/core/tiktokbot.py and
src/main.py) against its natural-language specification.

The Python code is shallowly embedded: network responses are modelled as
structures carrying exactly the fields the code inspects, Python exceptions
become constructors of explicit error types returned through Except, and the
sequence of HTTP requests a function issues is returned alongside its result
so that claims about ordering (probe before resolution) are statable.
-/

/-- Recording mode, mirroring utils.enums.Mode (MANUAL / AUTOMATIC). -/
inductive Mode where
  | manual
  | automatic
deriving DecidableEq

/-- Exceptions the constructor and resolution helpers can raise, mirroring
the raise sites in tiktokbot.py. -/
inductive InitError where
  | countryBlacklisted   -- CountryBlacklisted (both raise sites)
  | automaticModeError   -- ValueError(Error.AUTOMATIC_MODE_ERROR)
  | liveNotFound         -- LiveNotFound(Error.LIVE_NOT_FOUND)
  | ipBlockedByWAF       -- IPBlockedByWAF
  | roomIdExtractError   -- ValueError("Error extracting roomId")
  | roomIdNotFound       -- ValueError("RoomId not found.")
  | usernameError        -- AttributeError(Error.USERNAME_ERROR)
deriving DecidableEq

/-- HTTP requests issued during construction, identified by endpoint. -/
inductive Req where
  | probeLive (user : Option String)      -- GET @user/live, allow_redirects=False (blacklist probe)
  | getUrl (url : String)                 -- GET of the supplied URL, allow_redirects=False
  | getLivePage (user : Option String)    -- GET @user/live (room id lookup)
  | getLiveDetail (roomId : Option String) -- GET api/live/detail (username lookup)
deriving DecidableEq

/-- The parsed SIGI_STATE JSON blob, restricted to the fields
get_room_id_from_user inspects. -/
structure SigiState where
  hasLiveRoom : Bool     -- whether the key LiveRoom is present
  hasCurrentRoom : Bool  -- whether the key CurrentRoom is present
  roomId : Option String -- LiveRoom.liveRoomUserInfo.user.roomId, if reachable
deriving DecidableEq

/-- The live-page HTML, restricted to what get_room_id_from_user tests:
the anti-bot marker and the embedded SIGI_STATE script blob (none when the
script-tag search finds no match). -/
structure LivePage where
  hasPleaseWait : Bool
  sigi : Option SigiState
deriving DecidableEq

/-- The response to the non-redirect-following GET of the supplied URL,
restricted to what get_room_and_user_from_url tests: the two status-code
comparisons and the first match of the "com/@(.*?)/live" search. -/
structure UrlResponse where
  isRedirect : Bool             -- status_code == StatusCode.REDIRECT
  isMoved : Bool                -- status_code == StatusCode.MOVED
  movedUserMatch : Option String
deriving DecidableEq

/-- One element of the check_alive result collection, restricted to the
alive flag is_user_in_live reads. -/
structure AliveEntry where
  alive : Option Bool
deriving DecidableEq

/-- The parsed check_alive response: the value of the data key when present
(a list of entries), none when the key is absent. -/
structure CheckAliveData where
  dataField : Option (List AliveEntry)
deriving DecidableEq

/-- The parsed webcast room/info response, restricted to the fields
get_live_url inspects. -/
structure RoomInfoData where
  hasPrivateMarker : Bool        -- result of the membership test of the private marker
  rtmp_pull_url : Option String  -- data.stream_url.rtmp_pull_url along the nested path
  status_code : Option Int       -- top-level status_code
deriving DecidableEq

/-- The network environment at construction time: the response each endpoint
would give, in the form the code consumes after parsing. -/
structure World where
  livePageRedirect : Bool        -- blacklist probe: status_code == StatusCode.REDIRECT
  urlResp : UrlResponse
  urlDirectMatch : Option String -- re.match of tiktok.com/@name/live on the input URL
  livePage : LivePage
  detailUniqueId : Option String -- LiveRoomInfo.ownerInfo.uniqueId
  checkAlive : CheckAliveData
deriving DecidableEq

/-- The resolved identity held by the bot after construction. -/
structure Identity where
  user : Option String
  roomId : Option String
deriving DecidableEq

/-- Python truthiness of an optional string: None and the empty string are
falsy, every other string is truthy. -/
def truthyStr : Option String → Bool
  | none => false
  | some s => if s = "" then false else true

/-- TikTok.get_room_id_from_user: fetch the user live page, fail on the
anti-bot marker, fail when the SIGI_STATE blob is missing, report never-live
as the empty string when CurrentRoom is present without LiveRoom, otherwise
require the nested roomId. Returns the result with the requests issued. -/
def get_room_id_from_user (w : World) (user : Option String) :
    Except InitError String × List Req :=
  let t := [Req.getLivePage user]
  if w.livePage.hasPleaseWait then (.error .ipBlockedByWAF, t)
  else
    match w.livePage.sigi with
    | none => (.error .roomIdExtractError, t)
    | some d =>
      if ¬ d.hasLiveRoom ∧ d.hasCurrentRoom then (.ok "", t)
      else
        match d.roomId with
        | none => (.error .roomIdNotFound, t)
        | some r => (.ok r, t)

/-- TikTok.get_user_from_room_id: fetch api/live/detail and require a truthy
uniqueId (the source tests falsiness, so an empty string also fails). -/
def get_user_from_room_id (w : World) (roomId : Option String) :
    Except InitError String × List Req :=
  let t := [Req.getLiveDetail roomId]
  match w.detailUniqueId with
  | none => (.error .usernameError, t)
  | some u => if u = "" then (.error .usernameError, t) else (.ok u, t)

/-- TikTok.get_room_and_user_from_url: non-redirect-following GET of the URL;
a redirect status raises CountryBlacklisted, a moved status requires the
"com/@...live" body match, then the direct URL pattern may override the user,
and finally the room id is resolved from the user. Returns the new
(user, room_id) pair the method stores on self. -/
def get_room_and_user_from_url (w : World) (url : String) (user : Option String) :
    Except InitError (Option String × String) × List Req :=
  let t := [Req.getUrl url]
  if w.urlResp.isRedirect then (.error .countryBlacklisted, t)
  else
    let step1 : Except InitError (Option String) :=
      if w.urlResp.isMoved then
        match w.urlResp.movedUserMatch with
        | none => .error .liveNotFound
        | some u => .ok (some u)
      else .ok user
    match step1 with
    | .error e => (.error e, t)
    | .ok user1 =>
      let user2 := match w.urlDirectMatch with
                   | some u => some u
                   | none => user1
      match get_room_id_from_user w user2 with
      | (.error e, t2) => (.error e, t ++ t2)
      | (.ok r, t2) => (.ok (user2, r), t ++ t2)

/-- Third resolution step of TikTok.__init__: if self.room_id is falsy,
resolve it from the username; construction then succeeds. -/
def init_room_step (w : World) (user roomId : Option String) (t : List Req) :
    Except InitError Identity × List Req :=
  if truthyStr roomId = false then
    match get_room_id_from_user w user with
    | (.error e, t2) => (.error e, t ++ t2)
    | (.ok r, t2) => (.ok ⟨user, some r⟩, t ++ t2)
  else (.ok ⟨user, roomId⟩, t)

/-- Second resolution step of TikTok.__init__: if self.user is falsy,
resolve it from the room id. -/
def init_user_step (w : World) (user roomId : Option String) (t : List Req) :
    Except InitError Identity × List Req :=
  if truthyStr user = false then
    match get_user_from_room_id w roomId with
    | (.error e, t2) => (.error e, t ++ t2)
    | (.ok u, t2) => init_room_step w (some u) roomId (t ++ t2)
  else init_room_step w user roomId t

/-- First resolution step of TikTok.__init__: if self.url is truthy, derive
user and room id from the URL before the user and room steps. -/
def init_resolve (w : World) (url user roomId : Option String) (t : List Req) :
    Except InitError Identity × List Req :=
  if truthyStr url = true then
    match get_room_and_user_from_url w (url.getD "") user with
    | (.error e, t2) => (.error e, t ++ t2)
    | (.ok (u1, r1), t2) => init_user_step w u1 (some r1) (t ++ t2)
  else init_user_step w user roomId t

/-- TikTok.__init__: first the region-block probe (is_country_blacklisted,
a non-redirect-following GET of the user live page); on a redirect status a
missing room_id raises CountryBlacklisted and Automatic mode raises
ValueError, otherwise identity resolution proceeds. -/
def tiktok_init (w : World) (url user roomId : Option String) (mode : Mode) :
    Except InitError Identity × List Req :=
  let t := [Req.probeLive user]
  if w.livePageRedirect then
    if roomId = none then (.error .countryBlacklisted, t)
    else if mode = Mode.automatic then (.error .automaticModeError, t)
    else init_resolve w url user roomId t
  else init_resolve w url user roomId t

/-- C1: on a region-blocked probe (redirect status), construction with no
room_id raises CountryBlacklisted having issued only the probe request (no
identity resolution); with a room_id and Automatic mode it raises the
configuration ValueError; with a room_id and Manual mode it proceeds without
error through resolution. -/
theorem claim_C1 (w : World) (hw : w.livePageRedirect = true) :
    (∀ url user mode, tiktok_init w url user none mode =
        (.error .countryBlacklisted, [Req.probeLive user])) ∧
    (∀ url user r, tiktok_init w url user (some r) Mode.automatic =
        (.error .automaticModeError, [Req.probeLive user])) ∧
    (∀ r u, r ≠ "" → u ≠ "" → w.detailUniqueId = some u →
        tiktok_init w none none (some r) Mode.manual =
          (.ok ⟨some u, some r⟩, [Req.probeLive none, Req.getLiveDetail (some r)])) := by
  refine ⟨?_, ?_, ?_⟩
  · intro url user mode
    simp [tiktok_init, hw]
  · intro url user r
    simp [tiktok_init, hw]
  · intro r u hr hu hd
    simp [tiktok_init, hw, init_resolve, truthyStr, init_user_step,
      get_user_from_room_id, hd, hu, init_room_step, hr]

/-- Example world with a region-blocked probe and a resolvable username,
used to instantiate claim C1. -/
def worldC1 : World :=
  { livePageRedirect := true
    urlResp := ⟨false, false, none⟩
    urlDirectMatch := none
    livePage := ⟨false, none⟩
    detailUniqueId := some "alice"
    checkAlive := ⟨none⟩ }

/-- Witness instantiating claim C1 at a concrete world and inputs. -/
theorem claim_C1_witness :
    tiktok_init worldC1 none none none Mode.manual =
        (.error .countryBlacklisted, [Req.probeLive none]) ∧
    tiktok_init worldC1 none none (some "123") Mode.automatic =
        (.error .automaticModeError, [Req.probeLive none]) ∧
    tiktok_init worldC1 none none (some "123") Mode.manual =
        (.ok ⟨some "alice", some "123"⟩,
          [Req.probeLive none, Req.getLiveDetail (some "123")]) := by
  have h := claim_C1 worldC1 rfl
  exact ⟨h.1 none none Mode.manual, h.2.1 none none "123",
    h.2.2 "123" "alice" (by decide) (by decide) rfl⟩

/-- Python runtime errors the liveness check can raise. -/
inductive PyError where
  | indexError
deriving DecidableEq

/-- TikTok.is_user_in_live: data.get of the data key defaults to a singleton
list holding an empty dict, so an absent key yields false; indexing the
first element of an explicitly empty list raises IndexError; otherwise the
alive flag defaults to false. A single request, no retry. -/
def is_user_in_live (d : CheckAliveData) : Except PyError Bool :=
  match d.dataField with
  | none => .ok false
  | some [] => .error .indexError
  | some (e :: _) => .ok (e.alive.getD false)

/-- C4 counterexample: a response whose result collection is present but
empty makes the liveness query raise IndexError instead of returning false,
refuting the claim that it never raises in that case. -/
theorem claim_C4_counterexample :
    is_user_in_live ⟨some []⟩ = .error .indexError := rfl

/-- C4 amended: the liveness query returns false without error when the
result collection is absent or when the first entry lacks the alive flag;
an explicitly empty result collection instead raises IndexError. The query
issues no retry (it is a single pure read of one response). -/
theorem claim_C4_amended (d : CheckAliveData) :
    (d.dataField = none → is_user_in_live d = .ok false) ∧
    (∀ e rest, d.dataField = some (e :: rest) → e.alive = none →
        is_user_in_live d = .ok false) ∧
    (d.dataField = some [] → is_user_in_live d = .error .indexError) := by
  refine ⟨?_, ?_, ?_⟩
  · intro h; simp [is_user_in_live, h]
  · intro e rest h ha; simp [is_user_in_live, h, ha]
  · intro h; simp [is_user_in_live, h]

/-- Witness instantiating the amended C4 statement on concrete responses. -/
theorem claim_C4_witness :
    is_user_in_live ⟨none⟩ = .ok false ∧
    is_user_in_live ⟨some [⟨none⟩]⟩ = .ok false := by
  exact ⟨(claim_C4_amended ⟨none⟩).1 rfl,
    (claim_C4_amended ⟨some [⟨none⟩]⟩).2.1 ⟨none⟩ [] rfl rfl⟩

/-- Exceptions of the pull-URL fetch, mirroring the raise sites in
get_live_url and its caller start_recording. -/
inductive RecError where
  | accountPrivate
  | liveRestriction
  | liveNotFound       -- LiveNotFound(Error.URL_NOT_FOUND) raised by the caller
deriving DecidableEq

/-- TikTok.get_live_url: the private-account membership test raises
AccountPrivate; an absent rtmp_pull_url together with status_code 4003110
raises LiveRestriction; otherwise the (possibly absent) pull URL is
returned to the caller. -/
def get_live_url (d : RoomInfoData) : Except RecError (Option String) :=
  if d.hasPrivateMarker then .error .accountPrivate
  else if d.rtmp_pull_url = none ∧ d.status_code = some 4003110 then
    .error .liveRestriction
  else .ok d.rtmp_pull_url

/-- The pull-URL fetch as observed by recording: get_live_url followed by
the falsiness check in start_recording, which raises
LiveNotFound(URL_NOT_FOUND) when the returned URL is None or empty. -/
def get_pull_url (d : RoomInfoData) : Except RecError String :=
  match get_live_url d with
  | .error e => .error e
  | .ok none => .error .liveNotFound
  | .ok (some s) => if s = "" then .error .liveNotFound else .ok s

/-- Response with the pull-URL field present but holding the empty string. -/
def roomInfoEmptyUrl : RoomInfoData := ⟨false, some "", none⟩

/-- C3 counterexample: with the pull-URL field present but equal to the
empty string, the fetch fails with UrlNotFound rather than returning the
string, refuting the clause that the pull URL is returned whenever the
field is present. -/
theorem claim_C3_counterexample :
    roomInfoEmptyUrl.rtmp_pull_url = some "" ∧
    roomInfoEmptyUrl.hasPrivateMarker = false ∧
    get_pull_url roomInfoEmptyUrl = .error .liveNotFound := ⟨rfl, rfl, rfl⟩

/-- C3 amended: the fetch fails with AccountPrivate when the private marker
is present; with LiveRestriction when the pull-URL field is absent and the
status code is 4003110; with UrlNotFound when the field is absent otherwise
or present but empty; and returns the pull URL exactly when it is present
and non-empty. -/
theorem claim_C3_amended (d : RoomInfoData) :
    (d.hasPrivateMarker = true → get_pull_url d = .error .accountPrivate) ∧
    (d.hasPrivateMarker = false → d.rtmp_pull_url = none →
        d.status_code = some 4003110 → get_pull_url d = .error .liveRestriction) ∧
    (d.hasPrivateMarker = false → d.rtmp_pull_url = none →
        d.status_code ≠ some 4003110 → get_pull_url d = .error .liveNotFound) ∧
    (d.hasPrivateMarker = false → d.rtmp_pull_url = some "" →
        get_pull_url d = .error .liveNotFound) ∧
    (∀ s, d.hasPrivateMarker = false → d.rtmp_pull_url = some s → s ≠ "" →
        get_pull_url d = .ok s) := by
  refine ⟨?_, ?_, ?_, ?_, ?_⟩
  · intro h; simp [get_pull_url, get_live_url, h]
  · intro h hu hs; simp [get_pull_url, get_live_url, h, hu, hs]
  · intro h hu hs; simp [get_pull_url, get_live_url, h, hu, hs]
  · intro h hu; simp [get_pull_url, get_live_url, h, hu]
  · intro s h hu hs; simp [get_pull_url, get_live_url, h, hu, hs]

/-- Witness instantiating the amended C3 statement on concrete responses. -/
theorem claim_C3_witness :
    get_pull_url ⟨true, some "x", none⟩ = .error .accountPrivate ∧
    get_pull_url ⟨false, none, some 4003110⟩ = .error .liveRestriction ∧
    get_pull_url ⟨false, none, none⟩ = .error .liveNotFound ∧
    get_pull_url ⟨false, some "rtmp", none⟩ = .ok "rtmp" := by
  refine ⟨(claim_C3_amended _).1 rfl, (claim_C3_amended _).2.1 rfl rfl rfl,
    (claim_C3_amended _).2.2.1 rfl rfl (by decide),
    (claim_C3_amended _).2.2.2.2 "rtmp" rfl rfl (by decide)⟩

/-- Appending the empty string is the identity. -/
theorem str_append_empty (s : String) : s ++ "" = s := by
  apply String.ext
  simp [String.data_append]

/-- Boolean check that one character list is a prefix of another, used to
model the substring scan of the Python str.replace implementation. -/
def isPrefixList : List Char → List Char → Bool
  | [], _ => true
  | _ :: _, [] => false
  | a :: as, b :: bs => a == b && isPrefixList as bs

/-- A list is a boolean prefix of itself followed by anything. -/
theorem isPrefixList_append_self (l r : List Char) :
    isPrefixList l (l ++ r) = true := by
  induction l with
  | nil => rfl
  | cons a as ih => simp [isPrefixList, ih]

/-- Boolean suffix check on character lists, by prefix check of the
reversals. -/
def isSuffixList (suffix l : List Char) : Bool :=
  isPrefixList suffix.reverse l.reverse

/-- Python str.endswith. -/
def strEndsWith (s suffix : String) : Bool :=
  isSuffixList suffix.data s.data

/-- TikTok.prepare_output_path: append a path separator to the configured
directory only when it is truthy and does not already end in a slash or a
backslash, then append the timestamped file name. The POSIX branch of the
separator choice is modelled (the Windows branch appends a backslash
instead). -/
def prepare_output_path (output user current_date : String) : String :=
  let output_dir :=
    if output ≠ "" ∧ ¬ (strEndsWith output "/" = true ∨ strEndsWith output "\\" = true) then
      output ++ "/"
    else output
  (if output_dir ≠ "" then output_dir else "") ++
    "TK_" ++ user ++ "_" ++ current_date ++ "_flv.mp4"

/-- C5: the constructed output path is the directory, a separator inserted
exactly when the directory is non-empty and does not already end in a path
separator, and the file name TK_user_date_flv.mp4; an empty directory gives
no leading separator and a directory ending in a separator gains no second
one. -/
theorem claim_C5 (d u t : String) :
    prepare_output_path d u t =
      d ++ (if d ≠ "" ∧ ¬ (strEndsWith d "/" ∨ strEndsWith d "\\") then "/" else "") ++
        "TK_" ++ u ++ "_" ++ t ++ "_flv.mp4" ∧
    prepare_output_path "" u t = "TK_" ++ u ++ "_" ++ t ++ "_flv.mp4" ∧
    (strEndsWith d "/" = true →
      prepare_output_path d u t = d ++ "TK_" ++ u ++ "_" ++ t ++ "_flv.mp4") := by
  refine ⟨?_, ?_, ?_⟩
  · by_cases h1 : d = ""
    · subst h1; simp [prepare_output_path]
    · by_cases h2 : (strEndsWith d "/" ∨ strEndsWith d "\\")
      · simp [prepare_output_path, h1, h2, str_append_empty]
      · have hne : d ++ "/" ≠ "" := by
          intro h
          have h3 := congrArg String.data h
          rw [String.data_append] at h3
          simpa using congrArg List.length h3
        simp [prepare_output_path, h1, h2, hne]
  · simp [prepare_output_path]
  · intro h
    have h2 : (strEndsWith d "/" ∨ strEndsWith d "\\") := Or.inl (by simp [h])
    by_cases h1 : d = ""
    · subst h1; simp [prepare_output_path]
    · simp [prepare_output_path, h1, h2]

/-- Witness instantiating claim C5 on the spec's concrete examples. -/
theorem claim_C5_witness :
    prepare_output_path "" "alice" "2024.01.01_00-00-00" =
      "TK_alice_2024.01.01_00-00-00_flv.mp4" ∧
    prepare_output_path "/tmp/rec" "alice" "2024.01.01_00-00-00" =
      "/tmp/rec/TK_alice_2024.01.01_00-00-00_flv.mp4" ∧
    prepare_output_path "/tmp/rec/" "alice" "2024.01.01_00-00-00" =
      "/tmp/rec/TK_alice_2024.01.01_00-00-00_flv.mp4" := by
  refine ⟨?_, ?_, ?_⟩
  · exact ((claim_C5 "" "alice" "2024.01.01_00-00-00").2.1).trans (by decide)
  · exact ((claim_C5 "/tmp/rec" "alice" "2024.01.01_00-00-00").1).trans (by decide)
  · exact ((claim_C5 "/tmp/rec/" "alice" "2024.01.01_00-00-00").2.2
      (by decide)).trans (by decide)

/-- Python str.replace for a non-empty pattern, on character lists with a
fuel bound (the fuel is at least the list length at every call site): scan
left to right, replacing every non-overlapping occurrence of the pattern. -/
def replaceAllAux (pat rep : List Char) : Nat → List Char → List Char
  | _, [] => []
  | 0, s => s
  | fuel + 1, c :: rest =>
    if pat ≠ [] ∧ isPrefixList pat (c :: rest) = true then
      rep ++ replaceAllAux pat rep fuel (List.drop (pat.length - 1) rest)
    else
      c :: replaceAllAux pat rep fuel rest

/-- Python str.replace on character lists (non-empty pattern). -/
def replaceAll (pat rep s : List Char) : List Char :=
  replaceAllAux pat rep s.length s

/-- Python str.replace on strings (non-empty pattern). -/
def pyReplace (s pat rep : String) : String :=
  String.mk (replaceAll pat.data rep.data s.data)

/-- The pattern occurs nowhere in pre ++ pat except as the final suffix:
no index strictly inside pre starts an occurrence. -/
def noEarlyMatchB (pat pre : List Char) : Bool :=
  (List.range pre.length).all
    (fun i => !(isPrefixList pat (List.drop i (pre ++ pat))))

/-- Unfolding of the no-early-occurrence check into its pointwise form. -/
theorem noEarlyMatchB_iff (pat pre : List Char) :
    noEarlyMatchB pat pre = true ↔
      ∀ i, i < pre.length →
        isPrefixList pat (List.drop i (pre ++ pat)) = false := by
  simp [noEarlyMatchB, List.all_eq_true, List.mem_range]

/-- Replacing the pattern in pre ++ pat yields pre ++ rep when the pattern
has no occurrence starting inside pre, at any sufficient fuel. -/
theorem replaceAllAux_append_pat (pat rep : List Char) (hp : pat ≠ []) :
    ∀ (pre : List Char) (fuel : Nat), (pre ++ pat).length ≤ fuel →
      (∀ i, i < pre.length →
        isPrefixList pat (List.drop i (pre ++ pat)) = false) →
      replaceAllAux pat rep fuel (pre ++ pat) = pre ++ rep := by
  intro pre
  induction pre with
  | nil =>
    intro fuel hf _
    cases pat with
    | nil => exact absurd rfl hp
    | cons p pt =>
      cases fuel with
      | zero => simp at hf
      | succ f =>
        rw [List.nil_append]
        have hpref : isPrefixList (p :: pt) (p :: pt) = true := by
          simpa using isPrefixList_append_self (p :: pt) []
        simp only [replaceAllAux, hpref]
        simp only [ne_eq, reduceCtorEq, not_false_eq_true, and_self, if_true]
        simp only [List.length_cons, Nat.add_sub_cancel, List.drop_length]
        cases f <;> simp [replaceAllAux]
  | cons c pre' ih =>
    intro fuel hf h
    cases fuel with
    | zero => simp at hf
    | succ f =>
      have h0 := h 0 (by simp)
      rw [List.drop_zero, List.cons_append] at h0
      rw [List.cons_append]
      simp only [replaceAllAux]
      rw [if_neg (by rintro ⟨-, hpref⟩; rw [h0] at hpref; exact Bool.false_ne_true hpref)]
      rw [ih f (by simp at hf ⊢; omega) ?hrec]
      · simp
      case hrec =>
        intro i hi
        have := h (i + 1) (by simp; omega)
        rw [List.cons_append] at this
        simpa using this

/-- Replacing the pattern in pre ++ pat yields pre ++ rep when the pattern
has no occurrence starting inside pre. -/
theorem replaceAll_append_pat (pat rep : List Char) (hp : pat ≠ [])
    (pre : List Char) (h : noEarlyMatchB pat pre = true) :
    replaceAll pat rep (pre ++ pat) = pre ++ rep :=
  replaceAllAux_append_pat pat rep hp pre (pre ++ pat).length le_rfl
    ((noEarlyMatchB_iff pat pre).mp h)

/-- Python truthiness of the optional duration: None and 0 are falsy. -/
def truthyDuration : Option Int → Bool
  | none => false
  | some d => if d = 0 then false else true

/-- The chunked write loop of TikTok.record_with_stream. Each element of the
input models one chunk yielded by iter_content as its byte count paired with
the elapsed wall-clock time observed at the duration check right after it is
written. The chunk is written, then the loop breaks when the duration is
truthy and the elapsed time has reached it. -/
def stream_loop (duration : Option Int) : List (Nat × Int) → List (Nat × Int)
  | [] => []
  | (c, t) :: rest =>
    (c, t) ::
      (if truthyDuration duration = true ∧ duration.getD 0 ≤ t then []
       else stream_loop duration rest)

/-- Observable outcome of TikTok.record_with_stream: the chunk size passed
to iter_content and the chunks written to the output file. -/
structure StreamRecording where
  chunkSize : Nat
  written : List (Nat × Int)
deriving DecidableEq

/-- TikTok.record_with_stream: stream the pull URL and run the chunked
write loop with chunk_size 4096. -/
def record_with_stream (duration : Option Int) (chunks : List (Nat × Int)) :
    StreamRecording :=
  { chunkSize := 4096, written := stream_loop duration chunks }

/-- With a truthy duration, the write loop keeps exactly the chunks up to
and including the first one whose elapsed time has reached the limit. -/
theorem stream_loop_eq_take (N : Int) (hN : ¬ N = 0) (chunks : List (Nat × Int)) :
    stream_loop (some N) chunks =
      chunks.take (chunks.findIdx (fun p => decide (N ≤ p.2)) + 1) := by
  induction chunks with
  | nil => rfl
  | cons q rest ih =>
    obtain ⟨c, t⟩ := q
    by_cases h : N ≤ t
    · simp [stream_loop, truthyDuration, hN, h, List.findIdx_cons]
    · simp [stream_loop, truthyDuration, hN, h, List.findIdx_cons, ih]

/-- With a truthy duration, every written chunk except possibly the last
was checked strictly before the limit. -/
theorem stream_loop_dropLast (N : Int) (hN : ¬ N = 0) :
    ∀ chunks : List (Nat × Int),
      ∀ p ∈ (stream_loop (some N) chunks).dropLast, p.2 < N := by
  intro chunks
  induction chunks with
  | nil => intro p hp; simp [stream_loop] at hp
  | cons q rest ih =>
    obtain ⟨c, t⟩ := q
    intro p hp
    by_cases h : N ≤ t
    · simp [stream_loop, truthyDuration, hN, h] at hp
    · rw [show stream_loop (some N) ((c, t) :: rest) =
          (c, t) :: stream_loop (some N) rest by
            simp [stream_loop, truthyDuration, hN, h]] at hp
      cases hrec : stream_loop (some N) rest with
      | nil => rw [hrec] at hp; simp at hp
      | cons y ys =>
        rw [hrec, List.dropLast_cons₂] at hp
        rcases List.mem_cons.mp hp with hpc | hpm
        · subst hpc; omega
        · exact ih p (by rw [hrec]; exact hpm)

/-- C6: for a positive duration limit N and a response yielding at least one
chunk, the direct-stream recording uses chunk size 4096, writes a non-empty
file, keeps exactly the chunks up to and including the first one observed at
or past the limit (exiting immediately after it), and every earlier written
chunk was observed strictly before the limit. -/
theorem claim_C6 (N : Int) (hN : 0 < N) (chunks : List (Nat × Int))
    (hne : chunks ≠ []) :
    (record_with_stream (some N) chunks).chunkSize = 4096 ∧
    (record_with_stream (some N) chunks).written ≠ [] ∧
    (record_with_stream (some N) chunks).written =
      chunks.take (chunks.findIdx (fun p => decide (N ≤ p.2)) + 1) ∧
    ∀ p ∈ (record_with_stream (some N) chunks).written.dropLast, p.2 < N := by
  have hN0 : ¬ N = 0 := by omega
  refine ⟨rfl, ?_, stream_loop_eq_take N hN0 chunks, stream_loop_dropLast N hN0 chunks⟩
  cases chunks with
  | nil => exact absurd rfl hne
  | cons q rest =>
    obtain ⟨c, t⟩ := q
    simp [record_with_stream, stream_loop]

/-- Witness instantiating claim C6 at a one-second limit and three chunks. -/
theorem claim_C6_witness :
    (record_with_stream (some 1) [(4096, 0), (4096, 2), (4096, 3)]).written =
      [(4096, 0), (4096, 2)] ∧
    (record_with_stream (some 1) [(4096, 0), (4096, 2), (4096, 3)]).chunkSize = 4096 := by
  have h := claim_C6 1 (by decide) [(4096, 0), (4096, 2), (4096, 3)] (by decide)
  exact ⟨h.2.2.1.trans (by decide), h.1⟩

/-- The invocation of the external media tool built by
TikTok.record_with_ffmpeg: source URL, destination path, codec-copy flag
and the optional duration bound. -/
structure FfmpegCmd where
  src : String
  dest : String
  codecCopy : Bool
  t : Option Int
deriving DecidableEq

/-- TikTok.record_with_ffmpeg: the tool writes to the output path with the
_flv marker replaced, with a t duration argument only when the duration is
truthy, always with codec copy. -/
def record_with_ffmpeg (duration : Option Int) (live_url output : String) :
    FfmpegCmd :=
  if truthyDuration duration = true then
    ⟨live_url, pyReplace output "_flv.mp4" ".mp4", true, some (duration.getD 0)⟩
  else
    ⟨live_url, pyReplace output "_flv.mp4" ".mp4", true, none⟩

/-- C10 counterexample: the negative duration -1 is not strictly positive,
yet it bounds both strategies: the managed-process strategy passes t = -1 to
the external tool and the direct-stream loop stops after the first chunk,
refuting the clause that only strictly positive durations bound the
recording. -/
theorem claim_C10_counterexample :
    (record_with_ffmpeg (some (-1)) "url" "o_flv.mp4").t = some (-1) ∧
    stream_loop (some (-1)) [(4096, 0), (4096, 5)] = [(4096, 0)] := by decide

/-- C10 amended: a duration of 0 (like None) is treated as no limit at all,
the stream loop writing every chunk and the managed-process strategy passing
no duration bound; any non-zero duration, including a negative one, is
passed to the external tool as a bound. -/
theorem claim_C10_amended (chunks : List (Nat × Int)) (live_url output : String) :
    stream_loop (some 0) chunks = chunks ∧
    stream_loop none chunks = chunks ∧
    (record_with_ffmpeg (some 0) live_url output).t = none ∧
    (record_with_ffmpeg none live_url output).t = none ∧
    (∀ d : Int, d ≠ 0 → (record_with_ffmpeg (some d) live_url output).t = some d) := by
  refine ⟨?_, ?_, ?_, ?_, ?_⟩
  · induction chunks with
    | nil => rfl
    | cons q rest ih => obtain ⟨c, t⟩ := q; simp [stream_loop, truthyDuration, ih]
  · induction chunks with
    | nil => rfl
    | cons q rest ih => obtain ⟨c, t⟩ := q; simp [stream_loop, truthyDuration, ih]
  · simp [record_with_ffmpeg, truthyDuration]
  · simp [record_with_ffmpeg, truthyDuration]
  · intro d hd; simp [record_with_ffmpeg, truthyDuration, hd]

/-- Witness instantiating the amended C10 statement. -/
theorem claim_C10_witness :
    stream_loop (some 0) [(4096, 10), (4096, 20)] = [(4096, 10), (4096, 20)] ∧
    (record_with_ffmpeg (some 0) "u" "o_flv.mp4").t = none ∧
    (record_with_ffmpeg none "u" "o_flv.mp4").t = none ∧
    (record_with_ffmpeg (some 7) "u" "o_flv.mp4").t = some 7 := by
  have h := claim_C10_amended [(4096, 10), (4096, 20)] "u" "o_flv.mp4"
  exact ⟨h.1, h.2.2.1, h.2.2.2.1, h.2.2.2.2 7 (by decide)⟩

/-- Replacing the _flv.mp4 marker at the end of a path whose earlier part
contains no occurrence of the marker strips the _flv part. -/
theorem pyReplace_marker (pre : String)
    (h : noEarlyMatchB "_flv.mp4".data pre.data = true) :
    pyReplace (pre ++ "_flv.mp4") "_flv.mp4" ".mp4" = pre ++ ".mp4" := by
  unfold pyReplace replaceAll
  rw [String.data_append]
  rw [replaceAllAux_append_pat "_flv.mp4".data ".mp4".data (by decide) pre.data _
    le_rfl ((noEarlyMatchB_iff _ _).mp h)]
  apply String.ext
  simp [String.data_append]

/-- Outcome of the external tool run inside TikTok.convertion_mp4. -/
inductive ToolRun where
  | success        -- the re-encode ran to completion
  | fileNotFound   -- FileNotFoundError: the tool binary is missing
  | runtimeError   -- any other tool failure (for example ffmpeg.Error)
deriving DecidableEq

/-- Observable effect of TikTok.convertion_mp4 on the filesystem and log:
the sibling file the tool created, whether os.remove deleted the raw file,
whether the missing-tool message was logged, and whether an exception
escaped the method (only FileNotFoundError is caught). -/
structure ConvertResult where
  created : Option String
  rawDeleted : Bool
  loggedMissing : Bool
  propagated : Bool
deriving DecidableEq

/-- TikTok.convertion_mp4: on tool success the sibling with the _flv marker
replaced is created and the raw file removed; a FileNotFoundError is caught
and logged leaving the raw file in place; any other tool error propagates
before os.remove runs. -/
def convertion_mp4 (file : String) (tool : ToolRun) : ConvertResult :=
  match tool with
  | .success => ⟨some (pyReplace file "_flv.mp4" ".mp4"), true, false, false⟩
  | .fileNotFound => ⟨none, false, true, false⟩
  | .runtimeError => ⟨none, false, false, true⟩

/-- C8: post-processing a raw file carrying the _flv marker creates the
sibling with the marker removed and deletes the raw file on tool success;
the raw file is deleted only on success; and a missing tool binary is
logged, leaves the raw file untouched, and does not propagate. -/
theorem claim_C8 (pre : String)
    (h : noEarlyMatchB "_flv.mp4".data pre.data = true) :
    (convertion_mp4 (pre ++ "_flv.mp4") .success).created = some (pre ++ ".mp4") ∧
    (convertion_mp4 (pre ++ "_flv.mp4") .success).rawDeleted = true ∧
    (∀ tool, (convertion_mp4 (pre ++ "_flv.mp4") tool).rawDeleted = true →
      tool = .success) ∧
    (convertion_mp4 (pre ++ "_flv.mp4") .fileNotFound).loggedMissing = true ∧
    (convertion_mp4 (pre ++ "_flv.mp4") .fileNotFound).rawDeleted = false ∧
    (convertion_mp4 (pre ++ "_flv.mp4") .fileNotFound).propagated = false := by
  refine ⟨?_, rfl, ?_, rfl, rfl, rfl⟩
  · simp [convertion_mp4, pyReplace_marker pre h]
  · intro tool ht
    cases tool with
    | success => rfl
    | fileNotFound => simp [convertion_mp4] at ht
    | runtimeError => simp [convertion_mp4] at ht

/-- Witness instantiating claim C8 at a concrete marked file name. -/
theorem claim_C8_witness :
    (convertion_mp4 ("TK_a_t" ++ "_flv.mp4") .success).created =
      some ("TK_a_t" ++ ".mp4") ∧
    (convertion_mp4 ("TK_a_t" ++ "_flv.mp4") .success).rawDeleted = true ∧
    (convertion_mp4 ("TK_a_t" ++ "_flv.mp4") .fileNotFound).rawDeleted = false ∧
    (convertion_mp4 ("TK_a_t" ++ "_flv.mp4") .fileNotFound).loggedMissing = true := by
  have h := claim_C8 "TK_a_t" (by decide)
  exact ⟨h.1, h.2.1, h.2.2.2.2.1, h.2.2.2.1⟩

/-- Observable effect of TikTok.start_recording after the recording step:
the file actually written, the path logged at FINISH, and the file handed
to convertion_mp4 (when auto-convert is configured). The interactive prompt
of the direct-stream branch is modelled by the convert flag alone. -/
structure RecordRun where
  writtenFile : String
  loggedFinish : String
  convertedInput : Option String
deriving DecidableEq

/-- TikTok.start_recording, restricted to its path bookkeeping: the managed
process writes to the destination of the ffmpeg invocation (marker stripped)
while the log line and the conversion argument use the constructed output
path; the direct-stream branch writes to the output path itself. -/
def start_recording_model (use_ffmpeg convert : Bool) (duration : Option Int)
    (live_url output_path : String) : RecordRun :=
  if use_ffmpeg then
    { writtenFile := (record_with_ffmpeg duration live_url output_path).dest
      loggedFinish := output_path
      convertedInput := if convert then some output_path else none }
  else
    { writtenFile := output_path
      loggedFinish := output_path
      convertedInput := if convert then some output_path else none }

/-- C9: every constructed output path ends in the _flv marker, and in the
managed-process strategy the file actually written is that path with the
marker stripped while the FINISH log line and the optional post-processing
input keep the marker, so the written and reported paths always differ. -/
theorem claim_C9 (pre : String)
    (h : noEarlyMatchB "_flv.mp4".data pre.data = true)
    (convert : Bool) (duration : Option Int) (live_url : String) :
    (∀ d u t, ∃ pre0, prepare_output_path d u t = pre0 ++ "_flv.mp4") ∧
    (start_recording_model true convert duration live_url
        (pre ++ "_flv.mp4")).writtenFile = pre ++ ".mp4" ∧
    (start_recording_model true convert duration live_url
        (pre ++ "_flv.mp4")).loggedFinish = pre ++ "_flv.mp4" ∧
    (convert = true →
      (start_recording_model true convert duration live_url
        (pre ++ "_flv.mp4")).convertedInput = some (pre ++ "_flv.mp4")) ∧
    (start_recording_model true convert duration live_url
        (pre ++ "_flv.mp4")).writtenFile ≠
      (start_recording_model true convert duration live_url
        (pre ++ "_flv.mp4")).loggedFinish := by
  have hw : (start_recording_model true convert duration live_url
      (pre ++ "_flv.mp4")).writtenFile = pre ++ ".mp4" := by
    by_cases hd : truthyDuration duration = true
    · simp [start_recording_model, record_with_ffmpeg, hd, pyReplace_marker pre h]
    · simp [start_recording_model, record_with_ffmpeg, hd, pyReplace_marker pre h]
  refine ⟨?_, hw, rfl, ?_, ?_⟩
  · intro d u t; exact ⟨_, rfl⟩
  · intro hc; simp [start_recording_model, hc]
  · rw [hw]
    show ¬ pre ++ ".mp4" = pre ++ "_flv.mp4"
    intro heq
    have h1 := congrArg String.data heq
    rw [String.data_append, String.data_append] at h1
    have h2 := List.append_cancel_left h1
    exact absurd h2 (by decide)

/-- Witness instantiating claim C9 at a concrete output path. -/
theorem claim_C9_witness :
    (start_recording_model true true none "rtmp://x"
        ("TK_a_t" ++ "_flv.mp4")).writtenFile = "TK_a_t" ++ ".mp4" ∧
    (start_recording_model true true none "rtmp://x"
        ("TK_a_t" ++ "_flv.mp4")).loggedFinish = "TK_a_t" ++ "_flv.mp4" ∧
    (start_recording_model true true none "rtmp://x"
        ("TK_a_t" ++ "_flv.mp4")).convertedInput = some ("TK_a_t" ++ "_flv.mp4") ∧
    (start_recording_model true true none "rtmp://x"
        ("TK_a_t" ++ "_flv.mp4")).writtenFile ≠
      (start_recording_model true true none "rtmp://x"
        ("TK_a_t" ++ "_flv.mp4")).loggedFinish := by
  have h := claim_C9 "TK_a_t" (by decide) true none "rtmp://x"
  exact ⟨h.2.1, h.2.2.1, h.2.2.2.1 rfl, h.2.2.2.2⟩

/-- The parsed command-line arguments main.py consumes, restricted to the
fields its validation inspects. -/
structure Args where
  url : Option String
  user : Option String
  room_id : Option String
  mode : String
  ffmpeg : Bool
deriving DecidableEq

/-- The error classes TikTokLiveRecorder.run can raise during validation,
both in the spec taxonomy forms of InputError (ambiguous or missing
identifiers, invalid mode, invalid URL shape). -/
inductive RunError where
  | argsParse     -- ArgsParseError
  | liveNotFound  -- LiveNotFound for a URL not matching the live pattern
deriving DecidableEq

/-- Marker that validation passed and the run proceeds to cookie loading
and TikTok construction, the first point at which an HTTP request is
issued. -/
inductive RunPhase where
  | networkReached
deriving DecidableEq

/-- TikTokLiveRecorder.run up to the first network access: the validation
chain in source order (missing identifiers, falsy mode, invalid mode value,
URL pattern check, the three pairwise exclusivity checks, automatic mode
without ffmpeg), reaching the network phase only when every check passes.
The live-URL regex of utils.enums, absent from src, is abstracted as the
predicate argument. -/
def main_run (isLiveUrl : String → Bool) (a : Args) : Except RunError RunPhase :=
  if truthyStr a.user = false ∧ truthyStr a.room_id = false ∧ truthyStr a.url = false then
    .error .argsParse
  else if a.mode = "" then .error .argsParse
  else if ¬ (a.mode = "manual" ∨ a.mode = "automatic") then .error .argsParse
  else if truthyStr a.url = true ∧ isLiveUrl (a.url.getD "") = false then
    .error .liveNotFound
  else if truthyStr a.user = true ∧ truthyStr a.room_id = true then .error .argsParse
  else if truthyStr a.user = true ∧ truthyStr a.url = true then .error .argsParse
  else if truthyStr a.room_id = true ∧ truthyStr a.url = true then .error .argsParse
  else if a.ffmpeg = false ∧ ¬ a.mode = "manual" then .error .argsParse
  else .ok .networkReached

/-- How many of the three identifiers are (truthily) supplied. -/
def count_supplied (a : Args) : Nat :=
  (if truthyStr a.url = true then 1 else 0) +
    (if truthyStr a.user = true then 1 else 0) +
    (if truthyStr a.room_id = true then 1 else 0)

/-- C7: whenever more than one of url, user and room_id is supplied, the
run fails with one of the input-classified errors and never reaches the
network phase (cookie loading and TikTok construction). -/
theorem claim_C7 (isLiveUrl : String → Bool) (a : Args)
    (h : 2 ≤ count_supplied a) :
    (∃ e, main_run isLiveUrl a = .error e) ∧
    main_run isLiveUrl a ≠ .ok .networkReached := by
  have hpair : (truthyStr a.user = true ∧ truthyStr a.room_id = true) ∨
      (truthyStr a.user = true ∧ truthyStr a.url = true) ∨
      (truthyStr a.room_id = true ∧ truthyStr a.url = true) := by
    unfold count_supplied at h
    cases h1 : truthyStr a.url <;> cases h2 : truthyStr a.user <;>
      cases h3 : truthyStr a.room_id <;> simp_all
  have herr : ∃ e, main_run isLiveUrl a = .error e := by
    unfold main_run
    split_ifs with g1 g2 g3 g4 g5 g6 g7 g8 <;>
      first
        | exact ⟨_, rfl⟩
        | (rcases hpair with hp | hp | hp
           · exact absurd hp g5
           · exact absurd hp g6
           · exact absurd hp g7)
  refine ⟨herr, ?_⟩
  obtain ⟨e, he⟩ := herr
  rw [he]
  simp

/-- Arguments supplying both a URL and a username. -/
def argsBoth : Args :=
  { url := some "https://www.tiktok.com/@bob/live"
    user := some "bob"
    room_id := none
    mode := "manual"
    ffmpeg := false }

/-- Witness instantiating claim C7 on a url-and-user invocation. -/
theorem claim_C7_witness :
    2 ≤ count_supplied argsBoth ∧
    (∃ e, main_run (fun _ => true) argsBoth = .error e) ∧
    main_run (fun _ => true) argsBoth ≠ .ok .networkReached := by
  have h := claim_C7 (fun _ => true) argsBoth (by decide)
  exact ⟨by decide, h.1, h.2⟩

/-- How one pass of start_recording ends inside the automatic-mode loop
body, as far as exception classification is concerned. -/
inductive RecEnd where
  | finished           -- recording returned normally
  | connectionAborted  -- ConnectionAbortedError escaped
  | otherException     -- some other Exception escaped
  | processExit        -- sys.exit(1) on a missing tool: SystemExit, not an Exception
deriving DecidableEq

/-- Classification of one iteration of TikTok.run_automatic_mode as seen by
its three exception handlers: UserNotLiveException is raised for an empty
re-resolved room id or a negative liveness check; resolution failures
(IPBlockedByWAF, ValueError) and a failing liveness parse (IndexError) fall
to the generic Exception handler; outcomes of the recording step are passed
through. -/
inductive IterEnd where
  | success
  | userNotLive
  | connectionAborted
  | otherError
  | processExit
deriving DecidableEq

/-- One iteration of the body of TikTok.run_automatic_mode: re-resolve the
room id from the username, raise UserNotLiveException on an empty room id or
a dead room, record, and classify whatever escapes. -/
def automatic_iteration (w : World) (user : Option String) (recEnd : RecEnd) :
    IterEnd :=
  match (get_room_id_from_user w user).1 with
  | .error _ => .otherError
  | .ok r =>
    if r = "" then .userNotLive
    else
      match is_user_in_live w.checkAlive with
      | .error _ => .otherError
      | .ok false => .userNotLive
      | .ok true =>
        match recEnd with
        | .finished => .success
        | .connectionAborted => .connectionAborted
        | .otherException => .otherError
        | .processExit => .processExit

/-- Modelled from the spec: utils.enums.TimeOut is not under src/, so the
recheck interval (AUTOMATIC_MODE) and the shorter aborted-connection
interval (CONNECTION_CLOSED) are parameters in minutes, with ONE_MINUTE
equal to 60 seconds. The exception handlers of run_automatic_mode map an
iteration ending to the sleep performed (in seconds, none meaning no sleep
at all) and whether the while-True loop continues; only SystemExit escapes
the loop. -/
def loop_step (recheck shortI : Nat) : IterEnd → Option Nat × Bool
  | .userNotLive => (some (recheck * 60), true)
  | .connectionAborted => (some (shortI * 60), true)
  | .otherError => (none, true)
  | .success => (none, true)
  | .processExit => (none, false)

/-- C2: in automatic mode an iteration classified never-live or
not-currently-live is followed by the long recheck sleep, an iteration
ending in an aborted connection by the shorter sleep, and an iteration
ending in any other error by no sleep at all, the loop continuing in all
three cases. -/
theorem claim_C2 (recheck shortI : Nat) (_hs : shortI < recheck) (w : World)
    (user : Option String) (recEnd : RecEnd) :
    (automatic_iteration w user recEnd = .userNotLive →
      loop_step recheck shortI (automatic_iteration w user recEnd) =
        (some (recheck * 60), true)) ∧
    (automatic_iteration w user recEnd = .connectionAborted →
      loop_step recheck shortI (automatic_iteration w user recEnd) =
        (some (shortI * 60), true)) ∧
    (automatic_iteration w user recEnd = .otherError →
      loop_step recheck shortI (automatic_iteration w user recEnd) =
        (none, true)) := by
  refine ⟨?_, ?_, ?_⟩ <;> intro h <;> rw [h] <;> rfl

/-- World in which the user has a room reference but no live room:
re-resolution yields the empty room id (never live). -/
def worldNeverLive : World :=
  { livePageRedirect := false
    urlResp := ⟨false, false, none⟩
    urlDirectMatch := none
    livePage := ⟨false, some ⟨false, true, none⟩⟩
    detailUniqueId := none
    checkAlive := ⟨none⟩ }

/-- World in which the room resolves and the room is alive, so the
iteration ending is decided by the recording step. -/
def worldLiveRec : World :=
  { livePageRedirect := false
    urlResp := ⟨false, false, none⟩
    urlDirectMatch := none
    livePage := ⟨false, some ⟨true, false, some "42"⟩⟩
    detailUniqueId := none
    checkAlive := ⟨some [⟨some true⟩]⟩ }

/-- Witness instantiating claim C2 with a 5 minute recheck interval and a
2 minute aborted-connection interval. -/
theorem claim_C2_witness :
    loop_step 5 2 (automatic_iteration worldNeverLive (some "bob") .finished) =
      (some 300, true) ∧
    loop_step 5 2 (automatic_iteration worldLiveRec (some "bob") .connectionAborted) =
      (some 120, true) ∧
    loop_step 5 2 (automatic_iteration worldLiveRec (some "bob") .otherException) =
      (none, true) := by
  have h1 := claim_C2 5 2 (by decide) worldNeverLive (some "bob") .finished
  have h2 := claim_C2 5 2 (by decide) worldLiveRec (some "bob") .connectionAborted
  have h3 := claim_C2 5 2 (by decide) worldLiveRec (some "bob") .otherException
  exact ⟨h1.1 (by decide), h2.2.1 (by decide), h3.2.2 (by decide)⟩
